import Mathlib

/-!
Verification of the sacre_dieu chess engine core against its specification.

The definitions below are a shallow embedding of the Rust sources:
  * `src/src/utils/piece.rs`           (piece/color/tile model, attackers)
  * `src/src/utils/consts.rs`          (piece values, leaper masks, search constants)
  * `src/src/utils/zobrist.rs`         (Zobrist key tables and hashing)
  * `src/src/utils/piece_move.rs`      (moves, move ordering, SEE)
  * `src/src/utils/board.rs`           (board state, castling-rights update)
  * `src/src/utils/transposition_table.rs`
  * `src/src/engine/search.rs`         (search-stack fragments: improving flag,
                                        null-move pruning, killer updates, TT probe)

64-bit machine integers are modelled as `Nat` (with explicit wrapping where the
source can wrap), `i32`/score arithmetic as `Int`.  Rust functions that can
panic (indexing `unwrap`/`expect`) are modelled as `Option`-returning
functions, with `none` denoting the panic.
-/

namespace SacreDieu

/-- Source `PieceType` from `src/src/utils/piece.rs` (declaration order: Pawn, Knight,
Bishop, Rook, Queen, King). -/
inductive PieceType where
  | pawn
  | knight
  | bishop
  | rook
  | queen
  | king
deriving DecidableEq, Repr

/-- Source `PieceType::to_index` (piece.rs lines 20-29): indices 2..7, used to index the
shared `piece_bitboard` array and the Zobrist piece-key table. -/
def PieceType.toIndex : PieceType → Nat
  | .pawn => 2
  | .knight => 3
  | .bishop => 4
  | .rook => 5
  | .queen => 6
  | .king => 7

/-- The Rust `as usize` enum cast (discriminant order 0..5), used by
`SEE_VALUES[piece.piece_type as usize]` in piece_move.rs. -/
def PieceType.discr : PieceType → Nat
  | .pawn => 0
  | .knight => 1
  | .bishop => 2
  | .rook => 3
  | .queen => 4
  | .king => 5

/-- Source `PieceColor` from piece.rs (White, Black). -/
inductive PieceColor where
  | white
  | black
deriving DecidableEq, Repr

/-- Source `PieceColor::to_index` (piece.rs lines 65-70). -/
def PieceColor.toIndex : PieceColor → Nat
  | .white => 0
  | .black => 1

/-- Source `impl Not for PieceColor` (piece.rs lines 52-61). -/
def PieceColor.not : PieceColor → PieceColor
  | .white => .black
  | .black => .white

/-- Source `Piece` from piece.rs: a (type, color) pair. -/
structure Piece where
  pieceType : PieceType
  pieceColor : PieceColor
deriving DecidableEq, Repr

/-- Source `Tile` from piece.rs: a rank/file pair.  `Tile::new` validates
`rank ≤ 7 ∧ file ≤ 7`; all tiles constructed below satisfy this. -/
structure Tile where
  rank : Nat
  file : Nat
deriving DecidableEq, Repr

/-- Source `Tile::index` (piece.rs line 106-108). -/
def Tile.index (t : Tile) : Nat := t.rank * 8 + t.file

/-- Source `MoveFlags` from piece_move.rs. -/
inductive MoveFlags where
  | none
  | castling
  | doublePush
  | enPassant
  | knightPromotion
  | bishopPromotion
  | rookPromotion
  | queenPromotion
deriving DecidableEq, Repr

/-- Source `MoveFlags::is_promotion` (piece_move.rs lines 36-38). -/
def MoveFlags.isPromotion : MoveFlags → Bool
  | .knightPromotion | .bishopPromotion | .rookPromotion | .queenPromotion => true
  | _ => false

/-- Source `Move::get_promotion_type` (piece_move.rs lines 90-98); the source panics on a
non-promotion flag, modelled as `Option.none`. -/
def MoveFlags.promotionType : MoveFlags → Option PieceType
  | .knightPromotion => some .knight
  | .bishopPromotion => some .bishop
  | .rookPromotion => some .rook
  | .queenPromotion => some .queen
  | _ => Option.none

/-- Source `Move` from piece_move.rs; the source field `end` is a Lean keyword, renamed
`tileEnd`. -/
structure Move where
  initial : Tile
  tileEnd : Tile
  flags : MoveFlags
deriving DecidableEq, Repr

/-! ## Bitboards (board.rs lines 15-83)

A `Bitboard` wraps a `u64`; we model the raw word as a `Nat` that is kept
below `2^64` by construction. -/

/-- Source `u64::MAX`, the value of `!0u64`. -/
def U64_MAX : Nat := 2 ^ 64 - 1

/-- Source `Bitboard::set_bit` on a raw word, by tile index (`board |= 1 << index`). -/
def setBitIdx (b i : Nat) : Nat := b ||| (1 <<< i)

/-- Source `Bitboard::clear_bit` on a raw word (`board &= !(1 << index)`). -/
def clearBitIdx (b i : Nat) : Nat := b &&& (U64_MAX ^^^ (1 <<< i))

/-- Source `Bitboard::get_bit` on a raw word (`board & (1 << index) != 0`). -/
def getBitIdx (b i : Nat) : Bool := b &&& (1 <<< i) != 0

/-- Helper for `u64::trailing_zeros`: recursion on fuel. -/
def tzAux : Nat → Nat → Nat
  | 0, _ => 0
  | fuel + 1, b => if b % 2 = 1 then 0 else 1 + tzAux fuel (b / 2)

/-- Source `u64::trailing_zeros` (64 for the zero word), as used by
`Bitboard::pop_lsb` (board.rs lines 74-82). -/
def trailingZeros (b : Nat) : Nat := if b = 0 then 64 else tzAux 64 b

/-! ## Leaper attack tables (consts.rs lines 207-210)

Each pawn-mask entry is a `(movement, captures)` pair of raw `u64` words,
transcribed verbatim from the source. -/

def WHITE_PAWN_MASK : List (Nat × Nat) := [(0x00000000010100, 0x00000000000200), (0x00000000020200, 0x00000000000500), (0x00000000040400, 0x00000000000a00), (0x00000000080800, 0x00000000001400), (0x00000000101000, 0x00000000002800), (0x00000000202000, 0x00000000005000), (0x00000000404000, 0x0000000000a000), (0x00000000808000, 0x00000000004000), (0x00000001010000, 0x00000000020000), (0x00000002020000, 0x00000000050000), (0x00000004040000, 0x000000000a0000), (0x00000008080000, 0x00000000140000), (0x00000010100000, 0x00000000280000), (0x00000020200000, 0x00000000500000), (0x00000040400000, 0x00000000a00000), (0x00000080800000, 0x00000000400000), (0x00000101000000, 0x00000002000000), (0x00000202000000, 0x00000005000000), (0x00000404000000, 0x0000000a000000), (0x00000808000000, 0x00000014000000), (0x00001010000000, 0x00000028000000), (0x00002020000000, 0x00000050000000), (0x00004040000000, 0x000000a0000000), (0x00008080000000, 0x00000040000000), (0x00010100000000, 0x00000200000000), (0x00020200000000, 0x00000500000000), (0x00040400000000, 0x00000a00000000), (0x00080800000000, 0x00001400000000), (0x00101000000000, 0x00002800000000), (0x00202000000000, 0x00005000000000), (0x00404000000000, 0x0000a000000000), (0x00808000000000, 0x00004000000000), (0x01010000000000, 0x00020000000000), (0x02020000000000, 0x00050000000000), (0x04040000000000, 0x000a0000000000), (0x08080000000000, 0x00140000000000), (0x10100000000000, 0x00280000000000), (0x20200000000000, 0x00500000000000), (0x40400000000000, 0x00a00000000000), (0x80800000000000, 0x00400000000000), (0x101000000000000, 0x02000000000000), (0x202000000000000, 0x05000000000000), (0x404000000000000, 0x0a000000000000), (0x808000000000000, 0x14000000000000), (0x1010000000000000, 0x28000000000000), (0x2020000000000000, 0x50000000000000), (0x4040000000000000, 0xa0000000000000), (0x8080000000000000, 0x40000000000000), (0x100000000000000, 0x200000000000000), (0x200000000000000, 0x500000000000000), (0x400000000000000, 0xa00000000000000), (0x800000000000000, 0x1400000000000000), (0x1000000000000000, 0x2800000000000000), (0x2000000000000000, 0x5000000000000000), (0x4000000000000000, 0xa000000000000000), (0x8000000000000000, 0x4000000000000000), (0x00000000000000, 0x00000000000000), (0x00000000000000, 0x00000000000000), (0x00000000000000, 0x00000000000000), (0x00000000000000, 0x00000000000000), (0x00000000000000, 0x00000000000000), (0x00000000000000, 0x00000000000000), (0x00000000000000, 0x00000000000000), (0x00000000000000, 0x00000000000000)]

def BLACK_PAWN_MASK : List (Nat × Nat) := [(0x00000000000000, 0x00000000000000), (0x00000000000000, 0x00000000000000), (0x00000000000000, 0x00000000000000), (0x00000000000000, 0x00000000000000), (0x00000000000000, 0x00000000000000), (0x00000000000000, 0x00000000000000), (0x00000000000000, 0x00000000000000), (0x00000000000000, 0x00000000000000), (0x00000000000001, 0x00000000000002), (0x00000000000002, 0x00000000000005), (0x00000000000004, 0x0000000000000a), (0x00000000000008, 0x00000000000014), (0x00000000000010, 0x00000000000028), (0x00000000000020, 0x00000000000050), (0x00000000000040, 0x000000000000a0), (0x00000000000080, 0x00000000000040), (0x00000000000101, 0x00000000000200), (0x00000000000202, 0x00000000000500), (0x00000000000404, 0x00000000000a00), (0x00000000000808, 0x00000000001400), (0x00000000001010, 0x00000000002800), (0x00000000002020, 0x00000000005000), (0x00000000004040, 0x0000000000a000), (0x00000000008080, 0x00000000004000), (0x00000000010100, 0x00000000020000), (0x00000000020200, 0x00000000050000), (0x00000000040400, 0x000000000a0000), (0x00000000080800, 0x00000000140000), (0x00000000101000, 0x00000000280000), (0x00000000202000, 0x00000000500000), (0x00000000404000, 0x00000000a00000), (0x00000000808000, 0x00000000400000), (0x00000001010000, 0x00000002000000), (0x00000002020000, 0x00000005000000), (0x00000004040000, 0x0000000a000000), (0x00000008080000, 0x00000014000000), (0x00000010100000, 0x00000028000000), (0x00000020200000, 0x00000050000000), (0x00000040400000, 0x000000a0000000), (0x00000080800000, 0x00000040000000), (0x00000101000000, 0x00000200000000), (0x00000202000000, 0x00000500000000), (0x00000404000000, 0x00000a00000000), (0x00000808000000, 0x00001400000000), (0x00001010000000, 0x00002800000000), (0x00002020000000, 0x00005000000000), (0x00004040000000, 0x0000a000000000), (0x00008080000000, 0x00004000000000), (0x00010100000000, 0x00020000000000), (0x00020200000000, 0x00050000000000), (0x00040400000000, 0x000a0000000000), (0x00080800000000, 0x00140000000000), (0x00101000000000, 0x00280000000000), (0x00202000000000, 0x00500000000000), (0x00404000000000, 0x00a00000000000), (0x00808000000000, 0x00400000000000), (0x01010000000000, 0x02000000000000), (0x02020000000000, 0x05000000000000), (0x04040000000000, 0x0a000000000000), (0x08080000000000, 0x14000000000000), (0x10100000000000, 0x28000000000000), (0x20200000000000, 0x50000000000000), (0x40400000000000, 0xa0000000000000), (0x80800000000000, 0x40000000000000)]

def KNIGHT_MASKS : List Nat := [0x00000000020400, 0x00000000050800, 0x000000000a1100, 0x00000000142200, 0x00000000284400, 0x00000000508800, 0x00000000a01000, 0x00000000402000, 0x00000002040004, 0x00000005080008, 0x0000000a110011, 0x00000014220022, 0x00000028440044, 0x00000050880088, 0x000000a0100010, 0x00000040200020, 0x00000204000402, 0x00000508000805, 0x00000a1100110a, 0x00001422002214, 0x00002844004428, 0x00005088008850, 0x0000a0100010a0, 0x00004020002040, 0x00020400040200, 0x00050800080500, 0x000a1100110a00, 0x00142200221400, 0x00284400442800, 0x00508800885000, 0x00a0100010a000, 0x00402000204000, 0x02040004020000, 0x05080008050000, 0x0a1100110a0000, 0x14220022140000, 0x28440044280000, 0x50880088500000, 0xa0100010a00000, 0x40200020400000, 0x204000402000000, 0x508000805000000, 0xa1100110a000000, 0x1422002214000000, 0x2844004428000000, 0x5088008850000000, 0xa0100010a0000000, 0x4020002040000000, 0x400040200000000, 0x800080500000000, 0x1100110a00000000, 0x2200221400000000, 0x4400442800000000, 0x8800885000000000, 0x100010a000000000, 0x2000204000000000, 0x04020000000000, 0x08050000000000, 0x110a0000000000, 0x22140000000000, 0x44280000000000, 0x88500000000000, 0x10a00000000000, 0x20400000000000]

def KING_MASKS : List Nat := [0x00000000000302, 0x00000000000705, 0x00000000000e0a, 0x00000000001c14, 0x00000000003828, 0x00000000007050, 0x0000000000e0a0, 0x0000000000c040, 0x00000000030203, 0x00000000070507, 0x000000000e0a0e, 0x000000001c141c, 0x00000000382838, 0x00000000705070, 0x00000000e0a0e0, 0x00000000c040c0, 0x00000003020300, 0x00000007050700, 0x0000000e0a0e00, 0x0000001c141c00, 0x00000038283800, 0x00000070507000, 0x000000e0a0e000, 0x000000c040c000, 0x00000302030000, 0x00000705070000, 0x00000e0a0e0000, 0x00001c141c0000, 0x00003828380000, 0x00007050700000, 0x0000e0a0e00000, 0x0000c040c00000, 0x00030203000000, 0x00070507000000, 0x000e0a0e000000, 0x001c141c000000, 0x00382838000000, 0x00705070000000, 0x00e0a0e0000000, 0x00c040c0000000, 0x03020300000000, 0x07050700000000, 0x0e0a0e00000000, 0x1c141c00000000, 0x38283800000000, 0x70507000000000, 0xe0a0e000000000, 0xc040c000000000, 0x302030000000000, 0x705070000000000, 0xe0a0e0000000000, 0x1c141c0000000000, 0x3828380000000000, 0x7050700000000000, 0xe0a0e00000000000, 0xc040c00000000000, 0x203000000000000, 0x507000000000000, 0xa0e000000000000, 0x141c000000000000, 0x2838000000000000, 0x5070000000000000, 0xa0e0000000000000, 0x40c0000000000000]

/-! ## Sliding-piece attacks

Modelled from the spec: the magic-hash attack tables consumed by
`get_bishop_mask`/`get_rook_mask` (consts.rs lines 223-229) are binary blobs
(`src/bitboards/bishop.bin`, `src/bitboards/rook.bin`) that are not part of the
source tree.  Per the spec (§4.1), the lookup
`get_*_mask(generate_magic_index(magic, occ))` yields "the attack set for a
slider on that tile against that occupancy"; we define that attack set
directly as the union of blocked rays. -/

/-- One ray of slider attacks from (not including) square `(r, f)` in direction
`(dr, df)` against occupancy `occ`: squares up to and including the first
occupied square.  Fuel 7 covers the longest board ray. -/
def slideRay : Nat → Nat → Int → Int → Int → Int → Nat
  | 0, _, _, _, _, _ => 0
  | fuel + 1, occ, r, f, dr, df =>
    let r' := r + dr
    let f' := f + df
    if 0 ≤ r' ∧ r' < 8 ∧ 0 ≤ f' ∧ f' < 8 then
      let idx := (r' * 8 + f').toNat
      if getBitIdx occ idx then 1 <<< idx
      else (1 <<< idx) ||| slideRay fuel occ r' f' dr df
    else 0

/-- Modelled from the spec: bishop attack set of `get_bishop_mask` ∘
`generate_magic_index` — the four diagonal rays against `occ`. -/
def bishopAttacks (t : Tile) (occ : Nat) : Nat :=
  slideRay 7 occ t.rank t.file 1 1 ||| slideRay 7 occ t.rank t.file 1 (-1) |||
  slideRay 7 occ t.rank t.file (-1) 1 ||| slideRay 7 occ t.rank t.file (-1) (-1)

/-- Modelled from the spec: rook attack set of `get_rook_mask` ∘
`generate_magic_index` — the four orthogonal rays against `occ`. -/
def rookAttacks (t : Tile) (occ : Nat) : Nat :=
  slideRay 7 occ t.rank t.file 1 0 ||| slideRay 7 occ t.rank t.file (-1) 0 |||
  slideRay 7 occ t.rank t.file 0 1 ||| slideRay 7 occ t.rank t.file 0 (-1)

/-! ## Castling rights and board state (board.rs) -/

/-- Source `CastleRights` from piece.rs lines 428-435 (None, QueenSide, KingSide, Both). -/
inductive CastleRights where
  | none
  | queenSide
  | kingSide
  | both
deriving DecidableEq, Repr

/-- The Rust `as usize` cast on `CastleRights` (discriminant order), used by
`generate_zobrist_hash`. -/
def CastleRights.discr : CastleRights → Nat
  | .none => 0
  | .queenSide => 1
  | .kingSide => 2
  | .both => 3

/-- Source `Board` from board.rs lines 144-152.  The `piece_bitboard` array
(`[Bitboard; 8]`, colors at indices 0-1 and piece types at `to_index()`
indices 2-7) is modelled as a function from the array index to the raw word;
the 64-entry mailbox `board` as a function from tile index to `Option Piece`. -/
structure Board where
  pieceBitboard : Nat → Nat
  mailbox : Nat → Option Piece
  castleRights : PieceColor → CastleRights
  sideToMove : PieceColor
  enPassant : Option Tile

/-- Source `Board::occupied` (board.rs lines 166-168). -/
def Board.occupied (b : Board) : Nat :=
  b.pieceBitboard PieceColor.white.toIndex ||| b.pieceBitboard PieceColor.black.toIndex

/-- Source `Board::color` (board.rs lines 171-173). -/
def Board.color (b : Board) (c : PieceColor) : Nat := b.pieceBitboard c.toIndex

/-- Source `Board::piece` (board.rs lines 176-178). -/
def Board.piece (b : Board) (t : PieceType) : Nat := b.pieceBitboard t.toIndex

/-- Source `Board::colored_piece` (board.rs lines 181-183). -/
def Board.coloredPiece (b : Board) (t : PieceType) (c : PieceColor) : Nat :=
  b.piece t &&& b.color c

/-- Source `Tile::attackers` (piece.rs lines 138-154): all attackers of a tile against
a given occupancy, both colors.  The slider lookups
`get_*_mask(Board::generate_magic_index(..))` are replaced by the spec-modelled
`bishopAttacks`/`rookAttacks`. -/
def Tile.attackers (t : Tile) (b : Board) (occupied : Nat) : Nat :=
  let whitePawns := b.coloredPiece .pawn .white
  let blackPawns := b.coloredPiece .pawn .black
  let knights := b.piece .knight
  let bishops := b.piece .bishop ||| b.piece .queen
  let rooks := b.piece .rook ||| b.piece .queen
  let kings := b.piece .king
  let pawnAtt := ((BLACK_PAWN_MASK.getD t.index (0, 0)).2 &&& whitePawns) |||
                 ((WHITE_PAWN_MASK.getD t.index (0, 0)).2 &&& blackPawns)
  let knightAtt := KNIGHT_MASKS.getD t.index 0 &&& knights
  let bishopAtt := bishopAttacks t occupied &&& bishops
  let rookAtt := rookAttacks t occupied &&& rooks
  let kingAtt := KING_MASKS.getD t.index 0 &&& kings
  pawnAtt ||| knightAtt ||| bishopAtt ||| rookAtt ||| kingAtt

/-! ## Zobrist keys (zobrist.rs)

`ZOBRIST_PIECE_KEYS : [[u64; 64]; PIECE_INDICES + 1]` — nine rows of 64 keys,
transcribed verbatim. -/

def ZOBRIST_PIECE_KEYS : List (List Nat) := [[12209713866620864367, 3699901589224871922, 5423274442689130859, 17304711928845359584, 276586155990948995, 4068031863676514951, 6443781387327435044, 10292535720019985822, 16790893840862723372, 16322977992133542801, 7042105017252067007, 12694674137659247527, 16737245738399932093, 12137319763358584506, 12157618083585804299, 2189923594599043202, 14117278124606628760, 508470539879731704, 15815027857598713974, 16025120356328704504, 14063530979081778176, 10620554888492879434, 10201556053012801997, 2908140476134560653, 3375014357636861066, 9272823946651577125, 5008381588612438699, 14101338436513503842, 13014725010918810067, 15872908298655328294, 13470523853159375295, 12453653561552405154, 3129748781895108081, 17458472929720554034, 4849665670547375400, 10581054761878936194, 16166703885833379160, 15648586837705104382, 1567043910540181661, 5681641842107339095, 1448655543918990749, 16306210150073667869, 3102762252342971971, 5829200677475443302, 14106545485987387872, 12010948151776098115, 2642824478319312610, 17291814714332985712, 9939347465126682153, 1405818557293345203, 15041657755219539191, 4270855495178832850, 9929606297381979947, 12392411882859075949, 6718232716107015014, 9010050912867828908, 7073559356140093854, 8646073385525222507, 151660843512417381, 7804484352419027605, 13724196636536955255, 10723364592271878046, 12380151559789214671, 14291534850457068945],
[17105461470229686444, 7803702691817824, 9984511824476449005, 16144846561141442561, 5996737293057502944, 1059730393252587734, 7879035054659996857, 3676019387885327120, 10800824768759575012, 9463482502405296576, 3836192973961154005, 9310057257630694736, 9009396908598903732, 1217946898138935096, 510989280182075656, 16743430265404223323, 17337325502196043192, 10175014853447367713, 15737120774371653198, 16614490280177015225, 11784643504727429354, 17147774788642330232, 12897612088178076717, 5867614493915036709, 1834650444827252330, 1959787030275297017, 14347122276521524142, 260340770200025230, 17458949883446723917, 13439286601181772295, 2418682021600921762, 7080192046742504960, 963929494272283327, 14152369668267731394, 10304385952097843862, 466661696482226216, 14661648876356063294, 14899198312514591129, 8658181771791398043, 2911277728469185790, 18031065809777922768, 1300991224923462778, 6706952145805931633, 347295821102090543, 14807294030466566985, 16849297743632728942, 15853385280929503038, 8477166881917052680, 18055873370660623998, 6148417457975731531, 3536016448355136884, 6826531177728953360, 10230564678587223157, 3719847629707555320, 1415948547693891400, 10734695137078901272, 13048363851643081819, 6907969902512714562, 17311611538654921051, 8645768123721094560, 16241013196941097550, 10848675336811494182, 373030212938193285, 10529791382464921707],
[17368850438167489721, 2233006584142601480, 1072378029836985416, 3250641676354005764, 4602618211213879838, 18240386060821298633, 4728185608297350466, 6962905302642989842, 16265248837907733410, 16617864755319528471, 10552300788455783456, 6217674826813974823, 1936952501924251703, 329707590159794274, 3751942206548706331, 16618606433718056517, 9638154184322035182, 17847782562036780904, 2026821652222315378, 16263415158329896991, 10820913253278863321, 5654343025524585572, 4475715776509179682, 14206364963331640601, 6937917436094846726, 6324835114386950481, 13486425065802866386, 1771267757343095380, 14112919118346987785, 3140029690715216852, 11993195014835413699, 1172892673522694893, 11722355910285348441, 14390432797229158410, 4590355836676843448, 9974533997602035685, 11337793396724475960, 711036919368306215, 9949663152522016597, 2407502707509211410, 13655696155255558621, 11124354061980226022, 11891511824810829119, 15230114528303583185, 9770990557326698146, 15941875245215801247, 17888027920172393978, 16694314528000142412, 7341891992489338152, 14440547448399674491, 11476845039985635575, 15909837159669449829, 3711832337624059172, 12545717363301936544, 2003618867720166071, 9808393586516263455, 15920534759057494082, 12322348428761802350, 5059223313995920103, 14592401643590002962, 1590190207141693971, 8354798977781811850, 10121048473656734502, 3523261724662163261],
[7417142651479615489, 12205409712341581395, 6862692819191711734, 14293457161676995540, 2418918912714200087, 4750592469802318813, 13254909231796999427, 15711483961591959324, 13576478990758489167, 8114120700717498061, 2679338220976861435, 14222747138075441115, 18025087134195323982, 298552708044257401, 8704409624896465398, 10123956293391292508, 11456344568379618013, 4819632741163469577, 5254485075593689917, 8546308843275275272, 17472116284757755229, 14373685574430696564, 4149474723897798888, 5373572652967829495, 14035548239335617524, 10535762554015655887, 15821234833324293926, 15498314106823408055, 11977827640875902067, 5466401983919976652, 373617759650931418, 15753076121724790777, 4143928597117102375, 14973439072439443980, 4981685052412630593, 17336883102744841439, 11837077005296488873, 10390499843068047053, 6097922989154232891, 2673608061902125412, 1018937525256754925, 3531753845211054892, 15753790638893024844, 14169548004963300526, 17957352374455414128, 6343575403652706404, 17495520440832007636, 10752650589254378012, 5077553718080046778, 11543289546120715177, 8258101023883355877, 11293963955213395793, 17677738261659176514, 590573890047108866, 1893889501219508745, 7290025720779154613, 11760513536031638417, 13952070569330299906, 17548159488896104227, 7809809385656615847, 7865836344857757445, 435108319876164169, 10706566736562090180, 8889959141964830480],
[5020105208603655945, 16907844325929097567, 5896799335292135781, 16174776594573087023, 10498793843486938121, 3616409800280379028, 16227816863843997225, 6949775849875351348, 1582676162923266320, 16940345008574361221, 7276556353090582924, 17703827687975325203, 15229854738689744431, 14661190013709072883, 9667417347459338320, 8709636760075930898, 12439620160514294197, 7338997561036011931, 8416487246193409022, 9084670121779892845, 10697977178264620656, 11473653861625840208, 1320938628047405242, 18018587647206498844, 18189572452673929443, 14542971124338812045, 7243685307789219907, 528412765484590051, 3466701495773535277, 15231744326344809778, 7726976429516324512, 9873260937457004813, 18003354782996073380, 12528166735946912484, 1787925114690076919, 17418185522938110510, 7269848354298160938, 16324892890442081044, 3920059578205231505, 13167123373773391995, 5936165854304192785, 15221218671175675506, 11598293592728307214, 13776442903655242195, 8610847808355853521, 11070024650483108087, 5846773567243015564, 12540342672246728718, 4055782026082886907, 17725707195267065017, 10630876304569510022, 14682898038627460864, 3997111186802546735, 9417022934412315949, 1548884432461216771, 8200596104780096013, 17338102078461906129, 10343937853957004965, 11421807017730110594, 6378725255061006373, 16567593948267594675, 15302302662842776261, 6529978511708462415, 8141421276099380854],
[1926882538176693671, 15146286426970746146, 7533743801507214403, 3134649518160387746, 8561853661528070890, 4052135727054733579, 8335178261544286939, 12564433943227171040, 2132073869374949900, 5529167798958749915, 6614045599995158666, 484496940361946848, 13835057796431764881, 17880337264172172460, 16772843757286682650, 6741219189061166657, 5863876078751478330, 12828878707292120757, 1345069471971248999, 556310130002752816, 2154747741401475317, 11668579499995229194, 18235555301932537298, 6567395156533235128, 7394617379527613448, 10284821836830428575, 3239423531938587766, 16332999924027444285, 16199600810834172008, 12653002218095627206, 2999550669167230560, 16926826655597780908, 4053855522980435129, 18083432937549876924, 15106815923248198502, 8129843256446296924, 11205013411108811513, 6849476409095747861, 16960764990569095500, 6331085780444689824, 11840122141905913187, 17182826785955515886, 2309112791058055185, 16646828602895954191, 2226041340536629181, 11928949376259346870, 11366970675480793210, 14844598272709558969, 15700825023064181287, 16798141125365838490, 15795848776266457744, 2535393147095234648, 4379420866673217546, 266255530236854601, 18263965979577267654, 12773230544313421965, 8716600665140033234, 6605194460714017182, 9532509725440462596, 5748943651029255293, 15365530420543703881, 10579754519563316402, 10490623580863990504, 14013110027472873524],
[2409213184521995729, 4141362321833310041, 1659382891306459460, 8319285719339782804, 3642920663056383524, 14078516424016916880, 4079914974588476744, 13247307529902399156, 1200474698369410557, 4279596554680060798, 5287001119970373620, 10890685081284138101, 8085232436573133814, 71831305870541749, 18035021092183672596, 7488225739178167711, 3467193930028179887, 4045960312858615970, 16751313437253805617, 6707333564102326252, 17262782238488699074, 5297143202731723452, 13143344859896148670, 7433784193703398194, 420266754065539796, 9357786318363323522, 15882598021784612578, 9678083054168786627, 8594941028403885230, 8035516381012980330, 16320804243842428893, 16212930095742438592, 870504523573474807, 5609206880238649037, 7936396823617817251, 10526125426687901119, 12916553255439063077, 8703341496329162501, 4140322876117723136, 1133460820751884408, 13384954575286584777, 16396159479655885430, 1215493964687098584, 13775542534874026493, 215476573183513004, 55393325750061563, 17360099577268921423, 10458733347657253473, 4159573306080571736, 1883404346331870163, 13491846137951258207, 4774648535400247961, 13219328555016437410, 4251586608172103166, 15292282746629316641, 2223564038247191745, 6312330251726042588, 4013667925712600644, 873176310839923771, 6449646820625108254, 1503801579313505106, 1983077391864269706, 13420034913511527904, 4728301062849851746],
[6571395426197756892, 15762935183240181782, 15214615828124994794, 8172135148011996210, 10074697782221326812, 4119855190485402550, 15474649928893467227, 17708450986015367488, 7296351260675062274, 13826483659845104287, 9840920556078013369, 2736103084218879706, 4943363609793964405, 11686899504183792216, 267152879813695611, 953243339317341146, 7051936492420023301, 3504567926855290207, 1773554131373937539, 7894673063783668445, 10541995390156819537, 7416563859545823702, 6715757015558279861, 3195004780153226269, 18036294735999577420, 17054264075956610811, 16825903592490274897, 17292184992821501654, 3776738165254175046, 12160667009517748326, 569109601424985637, 8616442438118614999, 17538079970284519158, 6920755998535279118, 2096825845085459488, 7544138971888708990, 11590068176652617616, 14781674658192998285, 10080818873617023050, 9907336141977613084, 15345898708605963369, 11631884757933795713, 6764160256461040424, 5388025564133337146, 6884815804065668309, 13021457530628463373, 14156980112253459009, 1042396867964476754, 2350853883344940690, 3134387080696867480, 2897023591121766752, 4255060923318991876, 12850638589400474368, 17140419989882703557, 1276231972412826358, 7963326971056650652, 11425906160609605370, 937882059189534560, 17231283603654301830, 5709688369667379484, 6372628658947483190, 1778624446572122039, 5052294944274596338, 716440202442214807],
[4544613426697959585, 5691803069820048279, 14202126735157592788, 13974631424628188701, 10459453952762781330, 12389692858578176322, 7945902520264907148, 2943820183426421332, 16727578385158786850, 16857610517542643146, 12511929033447372001, 8958605654626404778, 11699901548855575564, 10193585678012291992, 7055375539629896501, 16224730632636859911, 2391728797392800049, 8530078636384396804, 7700560586347740992, 2004228495026678273, 270031744615953337, 10250459168904606911, 6141186156837580096, 12920126007578681524, 17920063448303375676, 4586889809701537518, 18227691549609211522, 10184206398643682321, 18186158517349796774, 9948618018105268997, 13584863425902534360, 4441767863063220375, 12173143045152568845, 17087352192984068528, 13616786981415842531, 16199752779043983129, 15083450919743241502, 1937564822805882047, 10564612529294721626, 8105031641862390827, 9454063773857531466, 6860019747254898373, 8627093939521800259, 10316218072929215523, 15638393948473456770, 5726938310719545099, 910987752290660697, 17446223003916869196, 7699581398048712533, 9408705445686156359, 9567176875184746981, 1993700577291991221, 13236049012694346139, 17409634625870337037, 3042216899796317594, 12777886408462173333, 7326898048760858349, 6563626327461747657, 15093250174514502111, 9131153697943212974, 5948257873008168679, 5732506953466051627, 13214197636690921702, 3286265856928320586]]

def ZOBRIST_CASTLING_KEYS : List Nat := [14038178521941090051,7183301732541184615,4269493297509785763,9513904193794502776,1802736310759650380,10182453658941707750,3930720569150393289,11713858652030083806]

def ZOBRIST_EN_PASSANT_KEYS : List Nat := [1624287234879227543,853674592114035455,14230447375709147666,418009804135388707,1158855520242729823,2603517891664097093,11767727142398382975,2245253154515528878,14622179804852566705]

def ZOBRIST_SIDE_TO_MOVE : Nat := 9936462436911364648
/-- The row index computed by `Piece::zobrist_key` (piece.rs line 199):
`piece_color.to_index() + piece_type.to_index()`. -/
def Piece.pieceIndex (p : Piece) : Nat :=
  p.pieceColor.toIndex + p.pieceType.toIndex

/-- Source `Piece::zobrist_key` (piece.rs lines 198-201). -/
def Piece.zobristKey (p : Piece) (tileIndex : Nat) : Nat :=
  (ZOBRIST_PIECE_KEYS.getD p.pieceIndex []).getD tileIndex 0

/-- Source `generate_zobrist_hash` (zobrist.rs lines 11-33). -/
def generateZobristHash (b : Board) : Nat :=
  let pieceHash := (List.range 64).foldl
    (fun h i => match b.mailbox i with
      | some p => h ^^^ p.zobristKey i
      | Option.none => h) 0
  let h := pieceHash ^^^
    ZOBRIST_CASTLING_KEYS.getD
      ((b.castleRights .white).discr + (b.castleRights .black).discr) 0
  let h := match b.enPassant with
    | some ep => h ^^^ ZOBRIST_EN_PASSANT_KEYS.getD (ep.rank + 1) 0
    | Option.none => h ^^^ ZOBRIST_EN_PASSANT_KEYS.getD 0 0
  if b.sideToMove = .black then h ^^^ ZOBRIST_SIDE_TO_MOVE else h

/-! ## Evaluation constants (consts.rs lines 21-42) -/

def MAX_DEPTH : Nat := 127
def WORST_EVAL : Int := -(2 ^ 31 - 1)
def BEST_EVAL : Int := 2 ^ 31 - 1
def PAWN_VALUE : Int := 100
def KNIGHT_VALUE : Int := 300
def BISHOP_VALUE : Int := 320
def ROOK_VALUE : Int := 500
def QUEEN_VALUE : Int := 900
def KING_VALUE : Int := 0

/-- Source `PieceType::get_value` (piece.rs lines 32-41). -/
def PieceType.getValue : PieceType → Int
  | .pawn => PAWN_VALUE
  | .knight => KNIGHT_VALUE
  | .bishop => BISHOP_VALUE
  | .rook => ROOK_VALUE
  | .queen => QUEEN_VALUE
  | .king => KING_VALUE

/-! ## Move ordering (piece_move.rs, `MoveSorter`) -/

/-- The `MoveSorter` score constants (piece_move.rs lines 311-316). -/
def HASH_MOVE : Int := 100000000
def GOOD_CAPTURE : Int := 20000000
def KILLER_MOVE : Int := 15000000
def COUNTER_MOVE : Int := 10000000
def QUIET_MOVE : Int := 5000000
def BAD_CAPTURE : Int := 0

/-- Source `MoveSorter::SEE_VALUES` (piece_move.rs line 318):
`[PAWN_VALUE, KNIGHT_VALUE, BISHOP_VALUE, ROOK_VALUE, QUEEN_VALUE, KING_VALUE]`. -/
def SEE_VALUES : List Int :=
  [PAWN_VALUE, KNIGHT_VALUE, BISHOP_VALUE, ROOK_VALUE, QUEEN_VALUE, KING_VALUE]

/-- Source `SEE_VALUES[piece_type as usize]`. -/
def seeValue (t : PieceType) : Int := SEE_VALUES.getD t.discr 0

/-- Source `MoveSorter` state (piece_move.rs lines 104-109): the history table
(`[[[i32; 64]; 64]; 2]`, indexed side/from/to) as a function, and the killer
table (`[Option<Move>; MAX_DEPTH + 4]`) as a list of length 131. -/
structure MoveSorter where
  historyTable : PieceColor → Nat → Nat → Int
  killerTable : List (Option Move)

/-- Source `MoveSorter::new` (piece_move.rs lines 113-118). -/
def MoveSorter.new : MoveSorter :=
  { historyTable := fun _ _ _ => 0
    killerTable := List.replicate (MAX_DEPTH + 4) Option.none }

/-- Source `MoveSorter::get_history` (piece_move.rs lines 121-123). -/
def MoveSorter.getHistory (ms : MoveSorter) (b : Board) (m : Move) : Int :=
  ms.historyTable b.sideToMove m.initial.index m.tileEnd.index

/-- Source `MoveSorter::update_history` (piece_move.rs lines 126-132).  `i32` division
truncates toward zero, hence `Int.tdiv`. -/
def MoveSorter.updateHistory (ms : MoveSorter) (b : Board) (m : Move) (bonus : Int) :
    MoveSorter :=
  let clampedBonus := max (-16384) (min bonus 16384)
  let oldValue := ms.getHistory b m
  { ms with historyTable := fun c i j =>
      if c = b.sideToMove ∧ i = m.initial.index ∧ j = m.tileEnd.index then
        ms.historyTable c i j + clampedBonus - Int.tdiv (oldValue * clampedBonus.natAbs) 16384
      else ms.historyTable c i j }

/-- Source `MoveSorter::get_killer` (piece_move.rs lines 135-137); the source indexes
`killer_table[ply]` and would panic out of range, which no in-range theorem
below exercises. -/
def MoveSorter.getKiller (ms : MoveSorter) (ply : Nat) : Option Move :=
  (ms.killerTable.get? ply).getD Option.none

/-- Source `MoveSorter::update_killer` (piece_move.rs lines 140-142) — writes the
`MoveSorter`'s own killer table.  (Never invoked by the search; see C2.) -/
def MoveSorter.updateKiller (ms : MoveSorter) (killerMove : Option Move) (ply : Nat) :
    MoveSorter :=
  { ms with killerTable := ms.killerTable.set ply killerMove }

/-- Source `MoveSorter::capture_move_value` (piece_move.rs lines 206-220). -/
def captureMoveValue (b : Board) (m : Move) : Int :=
  let value : Int := match b.mailbox m.tileEnd.index with
    | some p => seeValue p.pieceType
    | Option.none => 0
  if m.flags = MoveFlags.enPassant then seeValue .pawn
  else match m.flags.promotionType with
    | some pt => value + seeValue pt - seeValue .pawn
    | Option.none => value

/-- The cheapest attacker selection of the SEE loop (piece_move.rs lines
266-271): iterate `PieceType` in declaration order, keep the first type whose
pieces intersect `colored`; `next_victim` stays `King` if none do. -/
def selectVictim (b : Board) (colored : Nat) : PieceType :=
  if colored &&& b.piece .pawn != 0 then .pawn
  else if colored &&& b.piece .knight != 0 then .knight
  else if colored &&& b.piece .bishop != 0 then .bishop
  else if colored &&& b.piece .rook != 0 then .rook
  else if colored &&& b.piece .queen != 0 then .queen
  else .king

/-- The swap-off loop of `MoveSorter::static_exchange_evaluation`
(piece_move.rs lines 260-304), with explicit fuel (each iteration removes one
occupied square, so fuel 64 is never exhausted); returns the color standing at
the `break`. -/
def seeLoop (b : Board) (tileEnd : Tile) (diagonals orthogonals : Nat) :
    Nat → Nat → Nat → PieceColor → Int → PieceColor
  | 0, _, _, color, _ => color
  | fuel + 1, occupied, attackers, color, balance =>
    let coloredAttackers := attackers &&& b.color color
    if coloredAttackers = 0 then color
    else
      let nextVictim := selectVictim b coloredAttackers
      let occupied := clearBitIdx occupied
        (trailingZeros (coloredAttackers &&& b.piece nextVictim))
      let attackers :=
        if nextVictim = .pawn ∨ nextVictim = .bishop ∨ nextVictim = .queen then
          attackers ||| (bishopAttacks tileEnd occupied &&& diagonals)
        else attackers
      let attackers :=
        if nextVictim = .rook ∨ nextVictim = .queen then
          attackers ||| (rookAttacks tileEnd occupied &&& orthogonals)
        else attackers
      let attackers := attackers &&& occupied
      let color := color.not
      let balance := -balance - 1 - seeValue nextVictim
      if balance ≥ 0 then
        if nextVictim = .king ∧ attackers &&& b.color color != 0 then color.not
        else color
      else seeLoop b tileEnd diagonals orthogonals fuel occupied attackers color balance

/-- The rolling-occupancy setup of `static_exchange_evaluation`
(piece_move.rs lines 248-254): clear the origin, set the target, and — in the
en-passant case — `set_bit(board.en_passant.unwrap())` (the en-passant target
tile).  `none` models the `unwrap` panic. -/
def seeOccupancy (b : Board) (m : Move) : Option Nat :=
  let occupied := setBitIdx (clearBitIdx b.occupied m.initial.index) m.tileEnd.index
  if m.flags = MoveFlags.enPassant then
    b.enPassant.map (fun ep => setBitIdx occupied ep.index)
  else some occupied

/-- Source `MoveSorter::static_exchange_evaluation` (piece_move.rs lines 225-307);
`none` models the source's panics (`unwrap` on an empty origin square or a
missing en-passant target). -/
def see (b : Board) (m : Move) (threshold : Int) : Option Bool := do
  let nextVictim ←
    if m.flags.isPromotion then m.flags.promotionType
    else (b.mailbox m.initial.index).map (·.pieceType)
  let balance := captureMoveValue b m - threshold
  if balance < 0 then return false
  let balance := balance - seeValue nextVictim
  if balance ≥ 0 then return true
  let diagonals := b.piece .bishop ||| b.piece .queen
  let orthogonals := b.piece .rook ||| b.piece .queen
  let occupied ← seeOccupancy b m
  let attackers := m.tileEnd.attackers b occupied
  let stopColor := seeLoop b m.tileEnd diagonals orthogonals 64 occupied attackers
    b.sideToMove.not balance
  return b.sideToMove ≠ stopColor

/-- Source `MoveSorter::score_move` (piece_move.rs lines 168-203); `none` models the
`expect` on an empty origin square. -/
def scoreMove (ms : MoveSorter) (b : Board) (m : Move) (ply : Nat)
    (hashMove : Option Move) (qsearch : Bool) : Option Int := do
  if hashMove = some m then return HASH_MOVE
  let initialPiece ← b.mailbox m.initial.index
  match b.mailbox m.tileEnd.index with
  | some piece =>
    let mvvLva := 100 * piece.pieceType.getValue - initialPiece.pieceType.getValue
    let good ← see b m (-108)
    let captureBucket := if good then GOOD_CAPTURE else BAD_CAPTURE
    return captureBucket + mvvLva
  | Option.none =>
    let isQuiet := !qsearch && m.flags != MoveFlags.enPassant &&
      (b.mailbox m.tileEnd.index).isNone
    if isQuiet then
      let killerMove := ms.getKiller ply
      let historyScore := ms.getHistory b m
      if killerMove = some m then return KILLER_MOVE + historyScore
      else return QUIET_MOVE + historyScore
    else return 0

/-! ## Search-stack fragments (search.rs) -/

/-- Source `SearchEntry` (search.rs lines 9-15). -/
structure SearchEntry where
  killerMove : Option Move
  staticEval : Int
deriving DecidableEq, Repr

/-- The default `SearchEntry` used in `Searcher::new`. -/
def SearchEntry.default : SearchEntry := { killerMove := Option.none, staticEval := 0 }

/-- Source `Searcher::get_search_entry` (search.rs lines 73-75):
`search_stack.get(ply).cloned()`. -/
def getSearchEntry (stack : List SearchEntry) (ply : Nat) : Option SearchEntry :=
  stack.get? ply

/-- Source `Searcher::update_killer` (search.rs lines 78-80) — writes the killer slot
of the `search_stack` entry at `ply` (a store distinct from
`MoveSorter::killer_table`).  An out-of-range `ply` would panic in the source
and is a no-op here; no theorem below exercises it. -/
def searcherUpdateKiller (stack : List SearchEntry) (killerMove : Option Move)
    (ply : Nat) : List SearchEntry :=
  match stack.get? ply with
  | some e => stack.set ply { e with killerMove := killerMove }
  | Option.none => stack

/-- Model of 64-bit wrapping subtraction on `usize`, as release-mode Rust evaluates
`ply - 2` (search.rs lines 178-179) when `ply < 2`. -/
def usizeSub (a b : Nat) : Nat := (a + 2 ^ 64 - b % 2 ^ 64) % 2 ^ 64

/-- The `improving` computation (search.rs lines 174-182), evaluated after
`update_static_eval` has stored the current static eval at `stack[ply]`.
Both the `two_ply_back` and `four_ply_back` reads use `ply - 2`, exactly as the
source does; `none` models the `expect` on a missing current-ply entry. -/
def improvingFlag (inCheck : Bool) (stack : List SearchEntry) (ply : Nat) :
    Option Bool :=
  if inCheck then some false
  else match getSearchEntry stack ply with
    | Option.none => Option.none
    | some current =>
      let twoPlyBack := ((getSearchEntry stack (usizeSub ply 2)).getD
        { staticEval := WORST_EVAL, killerMove := Option.none }).staticEval
      let fourPlyBack := ((getSearchEntry stack (usizeSub ply 2)).getD
        { staticEval := WORST_EVAL, killerMove := Option.none }).staticEval
      some (current.staticEval > twoPlyBack || current.staticEval > fourPlyBack)

/-- The quiet-beta-cutoff bookkeeping (search.rs lines 265-277): history bonus
for the cutoff move, malus for the previously tried quiet moves, then
`self.update_killer(Some(mv), ply)` — which writes the `Searcher`'s
search-stack slot, not the `MoveSorter`'s killer table. -/
def quietCutoffUpdate (b : Board) (stack : List SearchEntry) (ms : MoveSorter)
    (m : Move) (ply depth : Nat) (quietMoves : List Move) :
    List SearchEntry × MoveSorter :=
  let bonus : Int := (depth * depth : Nat)
  let ms := ms.updateHistory b m bonus
  let ms := quietMoves.foldl (fun s oldMove => s.updateHistory b oldMove (-bonus)) ms
  (searcherUpdateKiller stack (some m) ply, ms)

/-- The null-move-pruning depth (search.rs line 191):
`(depth as isize - 3) - (depth as isize / 3)`, then `.max(0) as usize`. -/
def nmpDepth (depth : Nat) : Nat :=
  (max (((depth : Int) - 3) - (depth : Int) / 3) 0).toNat

/-- The null-move-pruning step (search.rs lines 189-198).  `oracle d a bb` is
the score of the recursive `search::<false>(&nmp_board, d, ply + 1, a, bb)` on
the null-moved board; the fragment negates it and returns it on `≥ beta`. -/
def nullMovePruning (pv inCheck : Bool) (staticEval : Int) (depth : Nat)
    (alpha beta : Int) (oracle : Nat → Int → Int → Int) : Option Int :=
  if !pv && !inCheck && staticEval ≥ beta then
    let nmpScore := -(oracle (nmpDepth depth) (-beta) (-alpha))
    if nmpScore ≥ beta then some nmpScore else Option.none
  else Option.none

/-- The `(PV, alpha, beta)` parameter triples reachable by `Searcher::search`.
Constructors mirror the call sites in search.rs:

* `root`: `search_timed`/`aspiration_windows` call `search::<true>` with any
  window `alpha < beta` (lines 100, 127).
* `fullWindow`: the first-legal-move search (line 229), the LMR re-search
  (line 242) and the null-move search (line 194) pass `(-beta, -alpha)` to
  `search::<PV>` (`search::<false>` at line 194 — where the parent is already
  non-PV, so the child's PV flag again equals the parent's).  `a ≤ a' < b`
  captures the loop's alpha: alpha starts at the node's `a`, is only raised to
  a score that was `< beta` (a score `≥ beta` breaks the loop before any
  further recursive call), and at line 194 alpha is still untouched.
* `nullWindow`: the zero-width search `search::<false>(…, -alpha - 1, -alpha)`
  (line 238), under the same loop-alpha bound. -/
inductive Reach : Bool → Int → Int → Prop where
  | root (a b : Int) : a < b → Reach true a b
  | fullWindow (pv : Bool) (a b a' : Int) :
      Reach pv a b → a ≤ a' → a' < b → Reach pv (-b) (-a')
  | nullWindow (pv : Bool) (a b a' : Int) :
      Reach pv a b → a ≤ a' → a' < b → Reach false (-a' - 1) (-a')

/-- Every reachable non-PV node has a zero-width window: `beta = alpha + 1`. -/
theorem Reach.width_one : ∀ {pv : Bool} {a b : Int}, Reach pv a b → pv = false → b = a + 1 := by
  intro pv a b h
  induction h with
  | root a b hab => intro hc; cases hc
  | fullWindow pv a b a' _ ha hb ih =>
      intro hpv
      have hw := ih hpv
      omega
  | nullWindow pv a b a' _ ha hb _ =>
      intro _
      omega

/-! ## Castling-rights update in `Board::make_move` (board.rs lines 294-320) -/

/-- The moving side's castling-rights update (board.rs lines 294-306): king
moves clear everything; rook moves test only `initial.file` (0 or 7) — the
rank of the origin square is never consulted. -/
def updateOwnCastleRights (rights : CastleRights) (movedType : PieceType)
    (initial : Tile) : CastleRights :=
  if rights ≠ CastleRights.none then
    if movedType = .king then CastleRights.none
    else if movedType = .rook then
      if initial.file = 0 then
        if rights = CastleRights.queenSide then CastleRights.none else CastleRights.kingSide
      else if initial.file = 7 then
        if rights = CastleRights.kingSide then CastleRights.none else CastleRights.queenSide
      else rights
    else rights
  else rights

/-- The defender's castling-rights update when a rook is captured
(board.rs lines 308-320): here both the rank (`correct_rank`) and the file of
the destination square are checked. -/
def updateEnemyCastleRights (rights : CastleRights) (endPiece : Option Piece)
    (tileEnd : Tile) : CastleRights :=
  match endPiece with
  | some p =>
    if p.pieceType = .rook then
      let correctRank := if p.pieceColor = .white then 0 else 7
      if rights ≠ CastleRights.none ∧ tileEnd.rank = correctRank then
        if tileEnd.file = 0 then
          if rights = CastleRights.queenSide then CastleRights.none else CastleRights.kingSide
        else if tileEnd.file = 7 then
          if rights = CastleRights.kingSide then CastleRights.none else CastleRights.queenSide
        else rights
      else rights
    else rights
  | Option.none => rights

/-! ## Transposition table (transposition_table.rs) -/

/-- Source `EvaluationType` (transposition_table.rs lines 20-27). -/
inductive EvaluationType where
  | exact
  | upperBound
  | lowerBound
deriving DecidableEq, Repr

/-- Source `TTEntry` (transposition_table.rs lines 5-16). -/
structure TTEntry where
  zobristKey : Nat
  depth : Nat
  evaluation : Int
  evaluationType : EvaluationType
  bestMove : Option Move
deriving DecidableEq, Repr

/-- Source `TranspositionTable` (transposition_table.rs lines 31-36). -/
structure TranspositionTable where
  table : List (Option TTEntry)
  buckets : Nat

/-- Source `TranspositionTable::index` (transposition_table.rs lines 75-78):
`((key as u128).wrapping_mul(self.buckets as u128) >> 64) as usize`, with the
`u128` wrap made explicit. -/
def TranspositionTable.index (tt : TranspositionTable) (key : Nat) : Nat :=
  ((key * tt.buckets) % 2 ^ 128) >>> 64

/-- Source `TranspositionTable::get` (transposition_table.rs lines 81-83): the slot at
`index(key)`, filtered on `entry.zobrist_key == key`.  An out-of-range index
(possible only when `buckets = 0`) would panic in the source and yields `none`
here; the theorems below assume `buckets > 0`. -/
def TranspositionTable.get (tt : TranspositionTable) (key : Nat) : Option TTEntry :=
  match tt.table.get? (tt.index key) with
  | some (some e) => if e.zobristKey = key then some e else Option.none
  | _ => Option.none

/-- Source `TranspositionTable::store` (transposition_table.rs lines 86-93). -/
def TranspositionTable.store (tt : TranspositionTable) (key : Nat) (e : TTEntry) :
    TranspositionTable × Nat :=
  let index := tt.index key
  ({ tt with table := tt.table.set index (some e) }, index)

/-- The transposition-table probe of `Searcher::search` (search.rs lines
156-167): at non-PV, non-root nodes, return the stored evaluation when the key
and depth check out and the bound applies. -/
def ttProbe (pv : Bool) (ply : Nat) (tt : TranspositionTable) (key : Nat)
    (depth : Nat) (alpha beta : Int) : Option Int :=
  if !pv && ply > 0 then
    match tt.get key with
    | some entry =>
      if entry.zobristKey = key ∧ entry.depth ≥ depth then
        match entry.evaluationType with
        | .exact => some entry.evaluation
        | .upperBound =>
          if entry.evaluation ≤ alpha then some entry.evaluation else Option.none
        | .lowerBound =>
          if entry.evaluation ≥ beta then some entry.evaluation else Option.none
      else Option.none
    | Option.none => Option.none
  else Option.none

/-! ## Concrete positions used by the counterexample theorems -/

/-- A board with only a white knight on a3 (tile index 16). -/
def knightA3Board : Board :=
  { pieceBitboard := fun _ => 0
    mailbox := fun i => if i = 16 then some ⟨.knight, .white⟩ else Option.none
    castleRights := fun _ => CastleRights.none
    sideToMove := .white
    enPassant := Option.none }

/-- A board with only a black pawn on a3 (tile index 16). -/
def pawnA3Board : Board :=
  { pieceBitboard := fun _ => 0
    mailbox := fun i => if i = 16 then some ⟨.pawn, .black⟩ else Option.none
    castleRights := fun _ => CastleRights.none
    sideToMove := .white
    enPassant := Option.none }

/-- White to move: Ka1, Bc3 vs. Kh8, Nd4, Pe5 — the knight on d4 is defended
once by the e5 pawn.  Tile indices: a1 = 0, c3 = 18, d4 = 27, e5 = 36,
h8 = 63. -/
def bxnBoard : Board :=
  { pieceBitboard := fun i =>
      if i = 0 then 2 ^ 18 + 2 ^ 0
      else if i = 1 then 2 ^ 27 + 2 ^ 36 + 2 ^ 63
      else if i = 2 then 2 ^ 36
      else if i = 3 then 2 ^ 27
      else if i = 4 then 2 ^ 18
      else if i = 7 then 2 ^ 0 + 2 ^ 63
      else 0
    mailbox := fun i =>
      if i = 0 then some ⟨.king, .white⟩
      else if i = 18 then some ⟨.bishop, .white⟩
      else if i = 27 then some ⟨.knight, .black⟩
      else if i = 36 then some ⟨.pawn, .black⟩
      else if i = 63 then some ⟨.king, .black⟩
      else Option.none
    castleRights := fun _ => CastleRights.none
    sideToMove := .white
    enPassant := Option.none }

/-- The capture Bc3xd4 on `bxnBoard`. -/
def bxnMove : Move := ⟨⟨2, 2⟩, ⟨3, 3⟩, MoveFlags.none⟩

/-- White to move: Ke1, Pe5 vs. Ke8, Pd5, after Black's d7-d5 double push;
the en-passant target is d6.  Tile indices: e1 = 4, d5 = 35, e5 = 36,
d6 = 43, e8 = 60. -/
def epBoard : Board :=
  { pieceBitboard := fun i =>
      if i = 0 then 2 ^ 36 + 2 ^ 4
      else if i = 1 then 2 ^ 35 + 2 ^ 60
      else if i = 2 then 2 ^ 36 + 2 ^ 35
      else if i = 7 then 2 ^ 4 + 2 ^ 60
      else 0
    mailbox := fun i =>
      if i = 4 then some ⟨.king, .white⟩
      else if i = 36 then some ⟨.pawn, .white⟩
      else if i = 35 then some ⟨.pawn, .black⟩
      else if i = 60 then some ⟨.king, .black⟩
      else Option.none
    castleRights := fun _ => CastleRights.none
    sideToMove := .white
    enPassant := some ⟨5, 3⟩ }

/-- The en-passant capture e5xd6 on `epBoard`; the captured pawn stands on
d5 (tile index 35). -/
def epMove : Move := ⟨⟨4, 4⟩, ⟨5, 3⟩, MoveFlags.enPassant⟩

/-- A kings-only board (Ke1 vs. Ke8), white to move. -/
def kingsBoard : Board :=
  { pieceBitboard := fun i =>
      if i = 0 then 2 ^ 4 else if i = 1 then 2 ^ 60 else if i = 7 then 2 ^ 4 + 2 ^ 60 else 0
    mailbox := fun i =>
      if i = 4 then some ⟨.king, .white⟩
      else if i = 60 then some ⟨.king, .black⟩
      else Option.none
    castleRights := fun _ => CastleRights.none
    sideToMove := .white
    enPassant := Option.none }

/-- The quiet move Ke1-e2 on `kingsBoard`. -/
def ke1e2 : Move := ⟨⟨0, 4⟩, ⟨1, 4⟩, MoveFlags.none⟩

/-- A fresh search stack, as built by `Searcher::new`. -/
def freshStack : List SearchEntry := List.replicate (MAX_DEPTH + 4) SearchEntry.default

/-- The state after the search records the quiet cutoff of Ke1-e2 at ply 0,
depth 1, with no previously tried quiet moves. -/
def cutoffState : List SearchEntry × MoveSorter :=
  quietCutoffUpdate kingsBoard freshStack MoveSorter.new ke1e2 0 1 []

/-! ## Claim theorems -/

/-- C1: the spec requires 12 distinct piece-key rows per tile, one per
(piece type, color) pair, but `Piece::zobrist_key`'s row index
`piece_color.to_index() + piece_type.to_index()` collides: a white knight and
a black pawn (distinct pairs) share row 3, get identical Zobrist keys on every
tile, and two boards differing only in that piece hash identically. -/
theorem zobrist_piece_index_collision :
    Piece.pieceIndex ⟨.knight, .white⟩ = Piece.pieceIndex ⟨.pawn, .black⟩ ∧
    (⟨.knight, .white⟩ : Piece) ≠ ⟨.pawn, .black⟩ ∧
    Piece.zobristKey ⟨.knight, .white⟩ 16 = Piece.zobristKey ⟨.pawn, .black⟩ 16 ∧
    generateZobristHash knightA3Board = generateZobristHash pawnA3Board ∧
    knightA3Board.mailbox 16 ≠ pawnA3Board.mailbox 16 := by
  refine ⟨rfl, by decide, rfl, by decide, by decide⟩

/-- C2: on a quiet beta cutoff the search writes the killer into
`Searcher::search_stack[ply]`, but `MoveSorter::score_move` reads
`MoveSorter::killer_table[ply]` via `get_killer` — a different store that the
search never writes.  After the cutoff bookkeeping for Ke1-e2 at ply 0, the
search stack holds the move, `get_killer` still returns `None`, and the move
is scored in the quiet bucket (`QUIET_MOVE + history`), not the killer
bucket. -/
theorem killer_store_read_mismatch :
    (cutoffState.1.get? 0).map (·.killerMove) = some (some ke1e2) ∧
    MoveSorter.getKiller cutoffState.2 0 = Option.none ∧
    scoreMove cutoffState.2 kingsBoard ke1e2 0 Option.none false
      = some (QUIET_MOVE + 1) ∧
    QUIET_MOVE + 1 < KILLER_MOVE := by
  refine ⟨by decide, by decide, by decide, by decide⟩

/-- C3 counterexample: at ply 0 (so the two-plies-earlier slot is unset) on a
fresh stack with static eval 0, the code computes `improving = true` — the
unset slot is replaced by the `WORST_EVAL` sentinel, which any static eval
exceeds — where the claim requires `false`. -/
theorem improving_unset_slot_counterexample :
    improvingFlag false freshStack 0 = some true ∧
    improvingFlag false freshStack 0 ≠ some false := by
  refine ⟨by decide, by decide⟩

/-- C3 amended: at a non-check node (with the current static eval already
stored at `stack[ply]`), `improving` equals `static_eval > static_eval two
plies earlier`, where an unset two-plies-earlier slot — in particular
`ply < 2`, whose wrapped index `ply - 2` falls outside the stack — contributes
the sentinel `WORST_EVAL`, so the flag is then *true* whenever the current
static eval exceeds `WORST_EVAL` (not false as the spec claims). -/
theorem improving_flag_amended (stack : List SearchEntry) (ply : Nat)
    (current : SearchEntry)
    (hcur : getSearchEntry stack ply = some current)
    (hlen : stack.length ≤ MAX_DEPTH + 4) :
    improvingFlag false stack ply =
      some (decide (current.staticEval >
        (if 2 ≤ ply then
          ((getSearchEntry stack (ply - 2)).getD
            { killerMove := Option.none, staticEval := WORST_EVAL }).staticEval
         else WORST_EVAL))) := by
  have hplylt : ply < stack.length := by
    by_contra hge
    rw [getSearchEntry, List.get?_eq_none.2 (by omega)] at hcur
    exact Option.noConfusion hcur
  have hlen131 : stack.length ≤ 131 := hlen
  by_cases hp : 2 ≤ ply
  · have hsub : usizeSub ply 2 = ply - 2 := by
      have : ply < 2 ^ 64 := by omega
      simp only [usizeSub]
      omega
    simp only [improvingFlag, hcur, hsub, hp, if_true, if_pos, Bool.or_self,
      Bool.if_false_left]
    simp [hp]
  · have hsub : stack.length ≤ usizeSub ply 2 := by
      simp only [usizeSub]
      omega
    have hnone : getSearchEntry stack (usizeSub ply 2) = Option.none := by
      exact List.get?_eq_none.2 hsub
    simp only [improvingFlag, hcur, hnone, Option.getD_none, Bool.or_self,
      if_false]
    simp [hp]

/-- C3 amended, witness: stack `[eval 5, eval 0, eval 3]` at ply 2 — the flag
is `3 > 5 = false`. -/
theorem improving_flag_amended_witness :
    getSearchEntry [⟨Option.none, 5⟩, ⟨Option.none, 0⟩, ⟨Option.none, 3⟩] 2
        = some ⟨Option.none, 3⟩ ∧
    ([⟨Option.none, 5⟩, ⟨Option.none, 0⟩, ⟨Option.none, 3⟩] :
        List SearchEntry).length ≤ MAX_DEPTH + 4 ∧
    improvingFlag false [⟨Option.none, 5⟩, ⟨Option.none, 0⟩, ⟨Option.none, 3⟩] 2 =
      some (decide (((⟨Option.none, 3⟩ : SearchEntry)).staticEval >
        (if 2 ≤ 2 then
          ((getSearchEntry [⟨Option.none, 5⟩, ⟨Option.none, 0⟩, ⟨Option.none, 3⟩] (2 - 2)).getD
            { killerMove := Option.none, staticEval := WORST_EVAL }).staticEval
         else WORST_EVAL))) :=
  ⟨by decide, by decide,
    improving_flag_amended _ 2 _ (by decide) (by decide)⟩

/-- C4: at every reachable non-PV node the window is zero-width
(`beta = alpha + 1`), so the null-move search — which the code performs with
`(-beta, -alpha)` at depth `max(0, depth - 3 - depth/3)` whenever
`!PV && !in_check && static_eval >= beta` — is exactly the claimed null-window
search `[-beta, -beta + 1]`, and its negated score is returned whenever it is
`>= beta`. -/
theorem null_move_pruning_null_window (a b : Int) (h : Reach false a b)
    (inCheck : Bool) (hic : inCheck = false) (staticEval : Int)
    (hse : staticEval ≥ b) (d : Nat) (oracle : Nat → Int → Int → Int) :
    nullMovePruning false inCheck staticEval d a b oracle =
      (if -(oracle (nmpDepth d) (-b) (-b + 1)) ≥ b
       then some (-(oracle (nmpDepth d) (-b) (-b + 1))) else Option.none) ∧
    (nmpDepth d : Int) = max (((d : Int) - 3) - (d : Int) / 3) 0 := by
  have hw : b = a + 1 := h.width_one rfl
  have hna : -a = -b + 1 := by omega
  constructor
  · rw [nullMovePruning, hic, hna]
    simp [hse]
  · rw [nmpDepth, Int.toNat_of_nonneg (le_max_right _ _)]

/-- C4 witness: the non-PV window `(-1, 0)` is reachable (a PV root `(-5, 5)`
spawns the null-window child), and at depth 4 with `static_eval = 7 ≥ 0` and
an oracle scoring `-9`, the fragment prunes with score 9 at null window
`(-0, -0 + 1)` and null-move depth `max(0, 4 - 3 - 4/3) = 0`. -/
theorem null_move_pruning_null_window_witness :
    Reach false (-1) 0 ∧
    (nullMovePruning false false 7 4 (-1) 0 (fun _ _ _ => -9) =
      (if -((fun _ _ _ => (-9 : Int)) (nmpDepth 4) (-(0 : Int)) (-(0 : Int) + 1)) ≥ (0 : Int)
       then some (-((fun _ _ _ => (-9 : Int)) (nmpDepth 4) (-(0 : Int)) (-(0 : Int) + 1)))
       else Option.none) ∧
     (nmpDepth 4 : Int) = max (((4 : Nat) : Int) - 3 - ((4 : Nat) : Int) / 3) 0) :=
  ⟨Reach.nullWindow true (-5) 5 0 (Reach.root (-5) 5 (by decide)) (by decide) (by decide),
    null_move_pruning_null_window (-1) 0
      (Reach.nullWindow true (-5) 5 0 (Reach.root (-5) 5 (by decide)) (by decide) (by decide))
      false rfl 7 (by decide) 4 (fun _ _ _ => -9)⟩

/-- C5 counterexample: on `bxnBoard` the capture Bc3xd4 (a bishop, value 320,
takes a knight, value 300, defended once) has `see(move, 0) = false`, yet
`score_move` calls SEE with threshold -108 and scores the move in the
GOOD_CAPTURE bucket: 20000000 + (100·300 - 320) = 20029680. -/
theorem good_capture_threshold_counterexample :
    scoreMove MoveSorter.new bxnBoard bxnMove 0 Option.none false = some 20029680 ∧
    see bxnBoard bxnMove 0 = some false ∧
    GOOD_CAPTURE ≤ (20029680 : Int) := by
  refine ⟨by decide, by decide, by decide⟩

/-- C5 amended: move ordering classifies a capture as a good capture exactly
when static exchange evaluation with threshold **-108** (not 0) returns true;
good captures score `GOOD_CAPTURE + mvv_lva`, the rest `BAD_CAPTURE +
mvv_lva`, with `mvv_lva = 100·victim_value - aggressor_value`. -/
theorem score_move_capture_buckets (ms : MoveSorter) (b : Board) (m : Move)
    (ply : Nat) (hashMove : Option Move) (qsearch : Bool)
    (initialPiece victim : Piece) (g : Bool)
    (hhash : hashMove ≠ some m)
    (hinit : b.mailbox m.initial.index = some initialPiece)
    (hend : b.mailbox m.tileEnd.index = some victim)
    (hsee : see b m (-108) = some g) :
    scoreMove ms b m ply hashMove qsearch =
      some ((if g then GOOD_CAPTURE else BAD_CAPTURE) +
        (100 * victim.pieceType.getValue - initialPiece.pieceType.getValue)) := by
  rw [scoreMove]
  simp [hhash, hinit, hend, hsee]

/-- C5 amended, witness: the Bc3xd4 capture on `bxnBoard` with
`see(move, -108) = true` scores `GOOD_CAPTURE + 29680`. -/
theorem score_move_capture_buckets_witness :
    (Option.none ≠ some bxnMove) ∧
    bxnBoard.mailbox bxnMove.initial.index = some ⟨.bishop, .white⟩ ∧
    bxnBoard.mailbox bxnMove.tileEnd.index = some ⟨.knight, .black⟩ ∧
    see bxnBoard bxnMove (-108) = some true ∧
    scoreMove MoveSorter.new bxnBoard bxnMove 0 Option.none false =
      some ((if true then GOOD_CAPTURE else BAD_CAPTURE) +
        (100 * (Piece.mk .knight .black).pieceType.getValue -
          (Piece.mk .bishop .white).pieceType.getValue)) :=
  ⟨by decide, by decide, by decide, by decide,
    score_move_capture_buckets MoveSorter.new bxnBoard bxnMove 0 Option.none false
      ⟨.bishop, .white⟩ ⟨.knight, .black⟩ true (by decide) (by decide) (by decide)
      (by decide)⟩

/-- C6: `SEE_VALUES` is `[100, 300, 320, 500, 900, 0]` — the bishop is worth
320 (`BISHOP_VALUE` in consts.rs), not the 300 the spec states (and that the
source's own SEE test suite documents as required: "Ensure SEE values are
[100, 300, 300, 500, 900, 0] ... otherwise it will fail"). -/
theorem see_values_bishop_320 :
    SEE_VALUES = [100, 300, 320, 500, 900, 0] ∧
    SEE_VALUES ≠ [100, 300, 300, 500, 900, 0] ∧
    BISHOP_VALUE = 320 := by
  refine ⟨by decide, by decide, by decide⟩

/-- C7: in the SEE of the en-passant capture e5xd6 on `epBoard`, the rolling
occupancy is only "origin cleared, target set": the en-passant branch executes
`set_bit(en_passant_target)` — a no-op, the moving pawn was just placed there —
so the victim pawn's square d5 (index 35) is *not* removed, contradicting the
claim's "EP victim removed". -/
theorem see_en_passant_occupancy_bug :
    seeOccupancy epBoard epMove =
      some (setBitIdx (clearBitIdx epBoard.occupied epMove.initial.index)
        epMove.tileEnd.index) ∧
    (seeOccupancy epBoard epMove).map (fun occ => getBitIdx occ 35) = some true ∧
    epBoard.mailbox 35 = some ⟨.pawn, .black⟩ ∧
    seeOccupancy epBoard epMove ≠
      some (clearBitIdx (setBitIdx (clearBitIdx epBoard.occupied epMove.initial.index)
        epMove.tileEnd.index) 35) := by
  refine ⟨by decide, by decide, by decide, by decide⟩

/-- C8: a rook move from a4 (rank 3, file 0) — not a home corner — with
queen-side rights still held clears those rights: the mover's castling-rights
update tests only `initial.file`, never the rank, contradicting the claim
that a rook move off a non-corner square leaves the rights unchanged. -/
theorem castle_rights_rook_file_only_bug :
    updateOwnCastleRights CastleRights.queenSide .rook ⟨3, 0⟩ = CastleRights.none ∧
    updateOwnCastleRights CastleRights.queenSide .rook ⟨3, 0⟩ ≠ CastleRights.queenSide ∧
    (⟨3, 0⟩ : Tile).rank ≠ 0 ∧ (⟨3, 0⟩ : Tile).rank ≠ 7 := by
  refine ⟨by decide, by decide, by decide, by decide⟩

/-- The bound condition of the claim's transposition-table cutoff contract. -/
def ttBoundOk (e : TTEntry) (alpha beta : Int) : Prop :=
  e.evaluationType = .exact ∨
  (e.evaluationType = .upperBound ∧ e.evaluation ≤ alpha) ∨
  (e.evaluationType = .lowerBound ∧ beta ≤ e.evaluation)

instance (e : TTEntry) (alpha beta : Int) : Decidable (ttBoundOk e alpha beta) := by
  unfold ttBoundOk
  infer_instance

/-- C9: at a non-PV, non-root node the probe returns the stored evaluation
exactly when the slot at `index(key)` holds an entry whose key equals the
query key, whose depth is at least the requested depth, and whose bound
applies (Exact; UpperBound with eval ≤ alpha; LowerBound with eval ≥ beta) —
in every other case, including a key mismatch (the slot then being treated as
empty by `get`), it returns nothing. -/
theorem tt_probe_characterization (ply : Nat) (tt : TranspositionTable)
    (key d : Nat) (alpha beta : Int) (hply : 0 < ply) :
    ttProbe false ply tt key d alpha beta =
      (match tt.table.get? (tt.index key) with
        | some (some e) =>
          if e.zobristKey = key ∧ d ≤ e.depth ∧ ttBoundOk e alpha beta
          then some e.evaluation else Option.none
        | _ => Option.none) := by
  rw [ttProbe, TranspositionTable.get]
  have hply' : ply > 0 := hply
  rw [if_pos (by simp [hply])]
  cases hslot : tt.table.get? (tt.index key) with
  | none => rfl
  | some slot =>
    cases slot with
    | none => rfl
    | some e =>
      by_cases hkey : e.zobristKey = key
      · simp only [hkey, if_true, ite_true]
        by_cases hd : d ≤ e.depth
        · simp only [hd, true_and, and_true, ge_iff_le, if_pos (And.intro rfl hd)]
          cases hbt : e.evaluationType with
          | exact => simp [ttBoundOk, hbt]
          | upperBound =>
            by_cases hub : e.evaluation ≤ alpha
            · simp [ttBoundOk, hbt, hub]
            · simp [ttBoundOk, hbt, hub]
          | lowerBound =>
            by_cases hlb : beta ≤ e.evaluation
            · simp [ttBoundOk, hbt, hlb]
            · simp [ttBoundOk, hbt, hlb]
        · simp [hd, hkey]
      · simp [hkey]

/-- C9 witness: a one-bucket table holding an Exact entry for key 0 at depth 7
answers a depth-5 probe at ply 1 with the stored evaluation 42. -/
theorem tt_probe_characterization_witness :
    (0 : Nat) < 1 ∧
    ttProbe false 1 ⟨[some ⟨0, 7, 42, .exact, Option.none⟩], 1⟩ 0 5 (-3) 3 =
      (match (⟨[some ⟨0, 7, 42, .exact, Option.none⟩], 1⟩ :
          TranspositionTable).table.get?
          ((⟨[some ⟨0, 7, 42, .exact, Option.none⟩], 1⟩ :
            TranspositionTable).index 0) with
        | some (some e) =>
          if e.zobristKey = 0 ∧ 5 ≤ e.depth ∧ ttBoundOk e (-3) 3
          then some e.evaluation else Option.none
        | _ => Option.none) :=
  ⟨by decide, tt_probe_characterization 1 _ 0 5 (-3) 3 (by decide)⟩

/-- C10: with at least one bucket, the multiply-shift index
`((key·buckets) mod 2^128) >> 64` of a 64-bit key is strictly below the bucket
count, so `get`/`store` (whose table length is the bucket count) never index
out of bounds. -/
theorem tt_index_in_bounds (tt : TranspositionTable) (key : Nat)
    (hb : 0 < tt.buckets) (hkey : key < 2 ^ 64) (hbk : tt.buckets < 2 ^ 64)
    (hlen : tt.table.length = tt.buckets) :
    tt.index key < tt.buckets ∧ tt.index key < tt.table.length := by
  have hmul : key * tt.buckets < 2 ^ 64 * tt.buckets :=
    (Nat.mul_lt_mul_right hb).mpr hkey
  have hlt128 : key * tt.buckets < 2 ^ 128 := by
    calc key * tt.buckets < 2 ^ 64 * tt.buckets := hmul
    _ ≤ 2 ^ 64 * 2 ^ 64 := Nat.mul_le_mul_left _ (Nat.le_of_lt hbk)
    _ = 2 ^ 128 := by norm_num
  have hidx : tt.index key = key * tt.buckets / 2 ^ 64 := by
    rw [TranspositionTable.index, Nat.mod_eq_of_lt hlt128,
      Nat.shiftRight_eq_div_pow]
  have hlt : tt.index key < tt.buckets := by
    rw [hidx]
    rw [Nat.div_lt_iff_lt_mul (by positivity)]
    calc key * tt.buckets < 2 ^ 64 * tt.buckets := hmul
    _ = tt.buckets * 2 ^ 64 := Nat.mul_comm _ _
  exact ⟨hlt, by omega⟩

/-- C10 witness: a one-bucket table indexed with key `2^64 - 1` stays in
bounds. -/
theorem tt_index_in_bounds_witness :
    (0 : Nat) < 1 ∧ 2 ^ 64 - 1 < 2 ^ 64 ∧ (1 : Nat) < 2 ^ 64 ∧
    ((⟨[Option.none], 1⟩ : TranspositionTable).index (2 ^ 64 - 1) < 1 ∧
      (⟨[Option.none], 1⟩ : TranspositionTable).index (2 ^ 64 - 1) <
        (⟨[Option.none], 1⟩ : TranspositionTable).table.length) :=
  ⟨by decide, by norm_num, by norm_num,
    tt_index_in_bounds ⟨[Option.none], 1⟩ (2 ^ 64 - 1) (by decide) (by norm_num)
      (by norm_num) (by decide)⟩

end SacreDieu
